import Mathlib

/-!
# Verification of the OpenCVE trigger-and-poll orchestrator and webhook test server

Shallow embedding of:

* `web/cves/management/commands/trigger_sync.py` — the Django management command
  that triggers the Airflow `opencve` DAG and optionally polls its state;
* `web/opencve/views.py` (`TriggerSyncView.post`) — the interactive trigger view;
* `webhook_test_server.py` — the webhook test HTTP server.

Modelling conventions:

* JSON values are modelled by `JVal`; JSON `null` and Python `None` coincide
  (`JVal.jnull`).  JSON numbers are modelled as integers (the code only orders
  and formats them; no claim depends on fractional values).
* HTTP responses, as observed through the `requests` library, are modelled by
  `HttpOutcome`: a connection-level failure, a non-2xx response (which
  `raise_for_status` turns into an `HTTPError` carrying the response), a 2xx
  response whose body fails to parse as JSON (`requests` raises a
  `JSONDecodeError`, a subclass of `RequestException`), another
  `RequestException` such as a read timeout, or a 2xx response with a JSON
  object body.  Response bodies that are used via `dict.get` are modelled as
  association lists.
* Time is modelled discretely with zero network latency: each `requests` call
  takes zero time and `time.sleep(2)` advances the clock by 2 seconds.  The
  console output of the command is modelled as a list of structured `Msg`
  values, one per `self.info`/`self.error` call, carrying exactly the values
  the corresponding f-string interpolates.
* Every HTTP request the command issues is recorded as a `TransportCall`
  (start time on the poll clock, URL, per-call timeout in seconds).
-/

/-- A JSON value.  `jnull` also stands for Python `None` (JSON `null` parses to
`None`, and `dict.get` of a missing key yields `None`). -/
inductive JVal where
  | jnull : JVal
  | jbool : Bool → JVal
  | jnum : Int → JVal
  | jstr : String → JVal
  | jarr : List JVal → JVal
  | jobj : List (String × JVal) → JVal

/-- Python `d.get(k, default)` on a `dict` parsed from JSON: the stored value if
the key is present (which may be `null` = `None`), else the default. -/
def dictGet (d : List (String × JVal)) (k : String) (dflt : JVal) : JVal :=
  (d.lookup k).getD dflt

/-- Python `x is None`. -/
def isNone : JVal → Bool
  | .jnull => true
  | _ => false

/-- Python `x == s` for a string literal `s`: true exactly when `x` is the
string `s` (comparison with a value of any other type is `False`). -/
def isStr (s : String) : JVal → Bool
  | .jstr t => t == s
  | _ => false

/-- Python truthiness of a JSON-derived value (`if x:`). -/
def pyTruthy : JVal → Bool
  | .jnull => false
  | .jbool b => b
  | .jnum n => n != 0
  | .jstr s => s != ""
  | .jarr xs => !xs.isEmpty
  | .jobj fs => !fs.isEmpty

mutual

/-- Python `str(x)` for a JSON-derived value (used by f-string interpolation). -/
def pyStr : JVal → String
  | .jnull => "None"
  | .jbool b => if b then "True" else "False"
  | .jnum n => toString n
  | .jstr s => s
  | .jarr xs => "[" ++ pyReprList xs ++ "]"
  | .jobj fs => "\x7b" ++ pyReprObj fs ++ "\x7d"

/-- Python `repr(x)` (how container elements are rendered by `str`). -/
def pyRepr : JVal → String
  | .jnull => "None"
  | .jbool b => if b then "True" else "False"
  | .jnum n => toString n
  | .jstr s => "\x27" ++ s ++ "\x27"
  | .jarr xs => "[" ++ pyReprList xs ++ "]"
  | .jobj fs => "\x7b" ++ pyReprObj fs ++ "\x7d"

def pyReprList : List JVal → String
  | [] => ""
  | [v] => pyRepr v
  | v :: vs => pyRepr v ++ ", " ++ pyReprList vs

def pyReprObj : List (String × JVal) → String
  | [] => ""
  | [(k, v)] => "\x27" ++ k ++ "\x27: " ++ pyRepr v
  | (k, v) :: fs => "\x27" ++ k ++ "\x27: " ++ pyRepr v ++ ", " ++ pyReprObj fs

end

mutual

/-- `json.dumps` of a JSON-derived value (display only; the `indent`
whitespace produced by the real call is elided, and string escaping is not
modelled — no claim depends on the rendered text). -/
def jsonDumps : JVal → String
  | .jnull => "null"
  | .jbool b => if b then "true" else "false"
  | .jnum n => toString n
  | .jstr s => "\x22" ++ s ++ "\x22"
  | .jarr xs => "[" ++ jsonDumpsList xs ++ "]"
  | .jobj fs => "\x7b" ++ jsonDumpsObj fs ++ "\x7d"

def jsonDumpsList : List JVal → String
  | [] => ""
  | [v] => jsonDumps v
  | v :: vs => jsonDumps v ++ ", " ++ jsonDumpsList vs

def jsonDumpsObj : List (String × JVal) → String
  | [] => ""
  | [(k, v)] => "\x22" ++ k ++ "\x22: " ++ jsonDumps v
  | (k, v) :: fs => "\x22" ++ k ++ "\x22: " ++ jsonDumps v ++ ", " ++ jsonDumpsObj fs

end

/-- A Python exception raised while processing a parsed payload. -/
inductive PyErr where
  | attributeError : PyErr
  | typeError : PyErr
  | valueError : PyErr

/-- `str(e)` of a `PyErr`, abstracted by the exception class (display only). -/
def pyErrStr : PyErr → String
  | .attributeError => "AttributeError"
  | .typeError => "TypeError"
  | .valueError => "ValueError"

/-- Python `x.get(k, default)`: raises `AttributeError` unless `x` is a dict. -/
def pyGet (v : JVal) (k : String) (dflt : JVal) : Except PyErr JVal :=
  match v with
  | .jobj fs => .ok (dictGet fs k dflt)
  | _ => .error .attributeError

/-- Python `len(x)`: defined for strings, lists and dicts, `TypeError`
otherwise. -/
def pyLen : JVal → Except PyErr Nat
  | .jstr s => .ok s.length
  | .jarr xs => .ok xs.length
  | .jobj fs => .ok fs.length
  | _ => .error .typeError

/-- Python iteration (`for x in v`): lists yield elements, strings yield
one-character strings, dicts yield keys; anything else raises `TypeError`. -/
def pyIter : JVal → Except PyErr (List JVal)
  | .jarr xs => .ok xs
  | .jstr s => .ok (s.data.map fun c => .jstr (String.singleton c))
  | .jobj fs => .ok (fs.map fun kv => .jstr kv.1)
  | _ => .error .typeError

def pyJoinStrs : List JVal → Except PyErr (List String)
  | [] => .ok []
  | .jstr s :: vs => do
    let rest ← pyJoinStrs vs
    .ok (s :: rest)
  | _ :: _ => .error .typeError

/-- Python `sep.join(v)`: iterates `v`; every element must be a string. -/
def pyJoin (sep : String) (v : JVal) : Except PyErr String := do
  let items ← pyIter v
  let strs ← pyJoinStrs items
  .ok (String.intercalate sep strs)

/-- `s * n` for a Python string. -/
def strRepeat (s : String) (n : Nat) : String :=
  String.join (List.replicate n s)

/- ANSI color codes from `webhook_test_server.py`. -/
namespace Color

def HEADER : String := "\x1b[95m"

def BLUE : String := "\x1b[94m"

def CYAN : String := "\x1b[96m"

def GREEN : String := "\x1b[92m"

def YELLOW : String := "\x1b[93m"

def RED : String := "\x1b[91m"

def BOLD : String := "\x1b[1m"

def UNDERLINE : String := "\x1b[4m"

def END : String := "\x1b[0m"

end Color

/-- `get_severity_color` from `webhook_test_server.py`: `None` is yellow,
otherwise the score is ordered against 9.0 / 7.0 / 4.0; a non-numeric score
raises `TypeError` at the first comparison. -/
def get_severity_color (score : JVal) : Except PyErr String :=
  match score with
  | .jnull => .ok Color.YELLOW
  | .jnum n =>
    .ok (if n ≥ 9 then Color.RED
         else if n ≥ 7 then Color.RED
         else if n ≥ 4 then Color.YELLOW
         else Color.GREEN)
  | .jbool b =>
    .ok (if (if b then (1 : Int) else 0) ≥ 9 then Color.RED
         else if (if b then (1 : Int) else 0) ≥ 7 then Color.RED
         else if (if b then (1 : Int) else 0) ≥ 4 then Color.YELLOW
         else Color.GREEN)
  | _ => .error .typeError

/-- `f"\x7bcvss31:.1f\x7d"`: formats a number with one decimal; raises for
strings (`ValueError`) and containers (`TypeError`). -/
def fmt1f : JVal → Except PyErr String
  | .jnum n => .ok (toString n ++ ".0")
  | .jbool b => .ok (if b then "1.0" else "0.0")
  | .jstr _ => .error .valueError
  | _ => .error .typeError

/-- `description[:200] + "..." if len(description) > 200 else description`:
`len` raises on non-sized values; slicing a long list and adding `"..."`, or
slicing a dict, raises `TypeError`. -/
def descPreview (description : JVal) : Except PyErr JVal := do
  let n ← pyLen description
  if n > 200 then
    match description with
    | .jstr s => .ok (.jstr (s.take 200 ++ "..."))
    | _ => .error .typeError
  else
    .ok description

/-- `format_cve_alert` from `webhook_test_server.py`, with Python exceptions
made explicit in `Except`.  Returns the joined output text. -/
def format_cve_alert (payload : JVal) : Except PyErr String := do
  let mut lines : List String := []
  lines := lines ++ ["\n" ++ strRepeat "=" 80]
  lines := lines ++
    [Color.BOLD ++ Color.CYAN ++ "📢 NEW OPENCVE WEBHOOK NOTIFICATION" ++ Color.END]
  lines := lines ++ [strRepeat "=" 80]
  let org ← pyGet payload "organization" (.jstr "N/A")
  lines := lines ++
    ["\n" ++ Color.BOLD ++ "Organization:" ++ Color.END ++ " " ++ pyStr org]
  let proj ← pyGet payload "project" (.jstr "N/A")
  lines := lines ++ [Color.BOLD ++ "Project:" ++ Color.END ++ " " ++ pyStr proj]
  let notif ← pyGet payload "notification" (.jstr "N/A")
  lines := lines ++
    [Color.BOLD ++ "Notification:" ++ Color.END ++ " " ++ pyStr notif]
  let title ← pyGet payload "title" (.jstr "N/A")
  lines := lines ++ [Color.BOLD ++ "Title:" ++ Color.END ++ " " ++ pyStr title]
  let period ← pyGet payload "period" (.jobj [])
  lines := lines ++ ["\n" ++ Color.BOLD ++ "Period:" ++ Color.END]
  let pstart ← pyGet period "start" (.jstr "N/A")
  lines := lines ++ ["  Start: " ++ pyStr pstart]
  let pend ← pyGet period "end" (.jstr "N/A")
  lines := lines ++ ["  End:   " ++ pyStr pend]
  let matched ← pyGet payload "matched_subscriptions" (.jobj [])
  let human ← pyGet matched "human" (.jarr [])
  let humanJoined ← pyJoin ", " human
  lines := lines ++
    ["\n" ++ Color.BOLD ++ "Matched Subscriptions:" ++ Color.END ++ " " ++ humanJoined]
  let changes ← pyGet payload "changes" (.jarr [])
  let nchanges ← pyLen changes
  lines := lines ++
    ["\n" ++ Color.BOLD ++ "CVE Changes: " ++ toString nchanges ++ Color.END]
  lines := lines ++ [strRepeat "-" 80]
  let items ← pyIter changes
  let mut idx : Nat := 1
  for change in items do
    let cve ← pyGet change "cve" (.jobj [])
    let cve_id ← pyGet cve "cve_id" (.jstr "UNKNOWN")
    let description ← pyGet cve "description" (.jstr "No description available")
    let cvss31 ← pyGet cve "cvss31" .jnull
    let subsObj ← pyGet cve "subscriptions" (.jobj [])
    let subscriptions ← pyGet subsObj "human" (.jarr [])
    let events ← pyGet change "events" (.jarr [])
    let severity_color ← get_severity_color cvss31
    let cvss_display ← if isNone cvss31 then pure "N/A" else fmt1f cvss31
    lines := lines ++
      ["\n" ++ Color.BOLD ++ toString idx ++ ". " ++ severity_color ++ pyStr cve_id
        ++ Color.END ++ " " ++ Color.BOLD ++ "[CVSS: " ++ severity_color
        ++ cvss_display ++ Color.END ++ Color.BOLD ++ "]" ++ Color.END]
    let desc_preview ← descPreview description
    lines := lines ++
      ["   " ++ Color.BLUE ++ "Description:" ++ Color.END ++ " " ++ pyStr desc_preview]
    if pyTruthy subscriptions then
      let subsJoined ← pyJoin ", " subscriptions
      lines := lines ++
        ["   " ++ Color.BLUE ++ "Subscriptions:" ++ Color.END ++ " " ++ subsJoined]
    if pyTruthy events then
      let evItems ← pyIter events
      let mut event_types : List JVal := []
      for e in evItems do
        let t ← pyGet e "type" (.jstr "unknown")
        event_types := event_types ++ [t]
      let typesJoined ← pyJoin ", " (.jarr event_types)
      lines := lines ++
        ["   " ++ Color.BLUE ++ "Events:" ++ Color.END ++ " " ++ typesJoined]
      for event in evItems do
        let event_type ← pyGet event "type" (.jstr "unknown")
        let event_data ← pyGet event "data" (.jobj [])
        if pyTruthy event_data then
          lines := lines ++
            ["      • " ++ pyStr event_type ++ ": "
              ++ (jsonDumps event_data).take 100 ++ "..."]
    idx := idx + 1
  lines := lines ++ ["\n" ++ strRepeat "=" 80 ++ "\n"]
  .ok (String.intercalate "\n" lines)

/-- The body of a POST request, as seen through `body.decode("utf-8")` and
`json.loads`: bytes that are not UTF-8 (`UnicodeDecodeError`, caught by the
generic handler), UTF-8 text that is not JSON (`json.JSONDecodeError`), or a
parsed JSON value. -/
inductive PostBody where
  | notUtf8 (excStr : String) : PostBody
  | badJson (excStr : String) : PostBody
  | parsed (payload : JVal) : PostBody

/-- True exactly when the body parses as JSON. -/
def PostBody.parses : PostBody → Bool
  | .parsed _ => true
  | _ => false

/-- An HTTP response sent by the webhook test server (status plus JSON body). -/
structure WebhookResp where
  status : Nat
  body : List (String × JVal)

/-- Result of handling one POST: the response, the value of
`WebhookHandler.received_count` afterwards, and whether a
`webhook_<timestamp>.json` file was written. -/
structure PostOut where
  resp : WebhookResp
  count : Nat
  savedFile : Bool

/-- `WebhookHandler.do_POST`.  `received_count` is the class counter before the
request.  Note the counter is incremented as soon as the JSON payload parses,
before `format_cve_alert` runs, so a payload whose formatting raises still
counts. -/
def do_POST (received_count : Nat) (path : String) (body : PostBody) : PostOut :=
  if path ≠ "/webhook" then
    ⟨⟨404, [("error", .jstr "Not found")]⟩, received_count, false⟩
  else
    match body with
    | .notUtf8 e => ⟨⟨500, [("error", .jstr e)]⟩, received_count, false⟩
    | .badJson _ => ⟨⟨400, [("error", .jstr "Invalid JSON")]⟩, received_count, false⟩
    | .parsed payload =>
      let count := received_count + 1
      match format_cve_alert payload with
      | .error e => ⟨⟨500, [("error", .jstr (pyErrStr e))]⟩, count, false⟩
      | .ok _ =>
        match (do
            let changes ← pyGet payload "changes" (.jarr [])
            pyLen changes : Except PyErr Nat) with
        | .error e => ⟨⟨500, [("error", .jstr (pyErrStr e))]⟩, count, true⟩
        | .ok cve_count =>
          ⟨⟨200, [("status", .jstr "received"),
                  ("message", .jstr "Webhook processed successfully"),
                  ("cve_count", .jnum cve_count),
                  ("received_count", .jnum count)]⟩, count, true⟩

/-- Content of a GET response (`/health` answers JSON, everything else HTML). -/
inductive GetContent where
  | jsonC (fields : List (String × JVal)) : GetContent
  | htmlC (page : String) : GetContent

/-- `WebhookHandler.do_GET`: replies 200 and never touches the counter. -/
def do_GET (received_count : Nat) (path serverName : String) (serverPort : Nat) :
    Nat × GetContent × Nat :=
  if path = "/health" then
    (200,
     .jsonC [("status", .jstr "healthy"),
             ("server", .jstr "OpenCVE Webhook Test Server"),
             ("received_webhooks", .jnum received_count)],
     received_count)
  else
    (200,
     .htmlC ("\n            <html>\n            <head><title>OpenCVE Webhook Test Server</title></head>\n            <body>\n                <h1>🔗 OpenCVE Webhook Test Server</h1>\n                <p>Server is running and ready to receive webhooks!</p>\n                <h2>Status</h2>\n                <ul>\n                    <li>Webhooks received: <strong>"
       ++ toString received_count
       ++ "</strong></li>\n                    <li>Webhook endpoint: <code>POST /webhook</code></li>\n                    <li>Health check: <code>GET /health</code></li>\n                </ul>\n                <h2>Configuration</h2>\n                <p>Configure your OpenCVE webhook with:</p>\n                <pre>URL: http://"
       ++ serverName ++ ":" ++ toString serverPort
       ++ "/webhook</pre>\n                <p>Check the terminal/console for detailed webhook output.</p>\n            </body>\n            </html>\n            "),
     received_count)

/-- One request to the webhook test server. -/
inductive Request where
  | get (path serverName : String) (serverPort : Nat) : Request
  | post (path : String) (body : PostBody) : Request

/-- The class counter `WebhookHandler.received_count` after one request. -/
def countAfter (received_count : Nat) : Request → Nat
  | .get path serverName serverPort =>
    (do_GET received_count path serverName serverPort).2.2
  | .post path body => (do_POST received_count path body).count

/-- True exactly for a POST to `/webhook` whose body parses as JSON. -/
def isCountedDelivery : Request → Bool
  | .post path body => path == "/webhook" && body.parses
  | .get _ _ _ => false

/-- The outcome of one `requests` call, through the exception taxonomy the two
call sites catch: `connectionError` (`requests.exceptions.ConnectionError`,
`e.response` is `None`), `httpError` (a non-2xx response turned into
`HTTPError` by `raise_for_status`; carries the status code, the response text,
the response body parsed as a JSON object when it is one, and `str(e)`),
`badJson` (2xx but `response.json()` raises `requests.exceptions.JSONDecodeError`,
a `RequestException` whose `e.response` is `None`), `otherReqError` (any other
`RequestException`, e.g. a read timeout), or `ok` (2xx with a JSON object
body). -/
inductive HttpOutcome where
  | connectionError (excStr : String) : HttpOutcome
  | httpError (status : Nat) (text : String)
      (jsonBody : Option (List (String × JVal))) (excStr : String) : HttpOutcome
  | badJson (excStr : String) : HttpOutcome
  | otherReqError (excStr : String) : HttpOutcome
  | ok (body : List (String × JVal)) : HttpOutcome

/-- True exactly when the call failed with a `RequestException`. -/
def HttpOutcome.isFailure : HttpOutcome → Bool
  | .ok _ => false
  | _ => true

/-- The `requests` exception interpolated into an error line (`f"...: {e}"`).
`httpErr` keeps the response's status code, which `e.response.status_code`
carries and `str(e)` begins with. -/
inductive ReqExc where
  | connErr (excStr : String) : ReqExc
  | httpErr (status : Nat) (excStr : String) : ReqExc
  | jsonDecodeErr (excStr : String) : ReqExc
  | otherErr (excStr : String) : ReqExc

/-- One console line of the management command, one constructor per
`self.info`/`self.error` call site in `trigger_sync.py`, carrying the
interpolated values. -/
inductive Msg where
  | triggering (url : String) : Msg
  | failedTrigger (e : ReqExc) : Msg
  | responseText (text : String) : Msg
  | failedTriggerRun : Msg
  | dagRunTriggered (dag_run_id : JVal) : Msg
  | stateLine (state : JVal) : Msg
  | viewInUi (url : String) (dag_run_id : JVal) : Msg
  | waiting (timeout : Nat) : Msg
  | failedGetState (e : ReqExc) : Msg
  | failedGetState2 : Msg
  | completedIn (elapsed : Nat) : Msg
  | runFailedAfter (elapsed : Nat) : Msg
  | stillRunning (state : JVal) (elapsed : Nat) : Msg
  | timeoutReached (timeout : Nat) : Msg
  | didNotComplete : Msg

/-- True for the lines printed through `self.error` (rather than `self.info`). -/
def Msg.isError : Msg → Bool
  | .failedTrigger _ => true
  | .responseText _ => true
  | .failedTriggerRun => true
  | .failedGetState _ => true
  | .failedGetState2 => true
  | .runFailedAfter _ => true
  | .timeoutReached _ => true
  | .didNotComplete => true
  | _ => false

/-- One HTTP request issued by the command: start time on the poll clock
(seconds since `wait_for_completion` began; the trigger call is recorded at 0,
before polling starts), the URL, and the per-call `requests` timeout. -/
structure TransportCall where
  startTime : Nat
  url : String
  timeoutSecs : Nat

/-- `f"\x7burl\x7d/api/v1/dags/opencve/dagRuns"` (the trigger endpoint;
`dag_id` is the constant `"opencve"` at both call sites). -/
def triggerUrl (cfgUrl : String) : String :=
  cfgUrl ++ "/api/v1/dags/opencve/dagRuns"

/-- `f"\x7burl\x7d/api/v1/dags/opencve/dagRuns/\x7bdag_run_id\x7d"`: the state
endpoint, with the run identifier interpolated via `str`. -/
def stateUrl (cfgUrl : String) (dag_run_id : JVal) : String :=
  cfgUrl ++ "/api/v1/dags/opencve/dagRuns/" ++ pyStr dag_run_id

/-- A `JsonResponse` sent by `TriggerSyncView.post`. -/
structure ViewResp where
  status : Nat
  body : List (String × JVal)

/-- `TriggerSyncView.post` from `web/opencve/views.py`.  `trigResp` is the
orchestration service's answer to the trigger request.  In the `HTTPError`
branch, `error_data = e.response.json()` / `error_data.get(...)` is attempted
under a bare `except:` whose fallback is `e.response.text or str(e)`; a
non-object JSON error body raises in `.get` and lands in the same fallback, so
`jsonBody = some fields` models exactly the bodies that are JSON objects. -/
def triggerSyncPost (trigResp : String → HttpOutcome) (cfgUrl : String) : ViewResp :=
  let api_url := triggerUrl cfgUrl
  match trigResp api_url with
  | .ok dag_run =>
    let dag_run_id := dictGet dag_run "dag_run_id" .jnull
    let state := dictGet dag_run "state" .jnull
    ⟨200, [("success", .jbool true),
           ("message", .jstr "CVE sync triggered successfully"),
           ("dag_run_id", dag_run_id),
           ("state", state),
           ("airflow_url",
            .jstr (cfgUrl ++ "/dags/opencve/grid?dag_run_id=" ++ pyStr dag_run_id))]⟩
  | .connectionError _ =>
    ⟨503, [("success", .jbool false),
           ("error", .jstr "Failed to connect to Airflow. Is the Airflow service running?")]⟩
  | .httpError status text jsonBody excStr =>
    let error_detail : JVal :=
      match jsonBody with
      | some error_data =>
        dictGet error_data "detail" (dictGet error_data "title" (.jstr excStr))
      | none => if text = "" then .jstr excStr else .jstr text
    ⟨status, [("success", .jbool false),
              ("error", .jstr ("Airflow API error: " ++ pyStr error_detail))]⟩
  | .badJson excStr =>
    ⟨500, [("success", .jbool false),
           ("error", .jstr ("Failed to trigger sync: " ++ excStr))]⟩
  | .otherReqError excStr =>
    ⟨500, [("success", .jbool false),
           ("error", .jstr ("Failed to trigger sync: " ++ excStr))]⟩

/-- `Command.trigger_dag`: POSTs the trigger request and returns the parsed
body, or `None` after printing the failure (`hasattr(e.response, "text")` holds
only for `HTTPError`, whose exception carries the response; `ConnectionError`,
`JSONDecodeError` and other `RequestException`s have `e.response is None`). -/
def trigger_dag (trigResp : String → HttpOutcome) (cfgUrl : String) :
    Option (List (String × JVal)) × List Msg × List TransportCall :=
  let api_url := triggerUrl cfgUrl
  let call : TransportCall := ⟨0, api_url, 10⟩
  match trigResp api_url with
  | .ok body => (some body, [], [call])
  | .connectionError e => (none, [.failedTrigger (.connErr e)], [call])
  | .httpError status text _ e =>
    (none, [.failedTrigger (.httpErr status e), .responseText text], [call])
  | .badJson e => (none, [.failedTrigger (.jsonDecodeErr e)], [call])
  | .otherReqError e => (none, [.failedTrigger (.otherErr e)], [call])

/-- `Command.get_dag_run_state`: GETs the run's state and returns
`data.get("state")`, or `None` after printing the failure.  The Python return
value is `None` both on a `RequestException` and when the 2xx body has no
(or a null) `"state"` field; both are `JVal.jnull` here.  `t` is the poll-clock
time at which the call is issued (recorded in the `TransportCall`). -/
def get_dag_run_state (resp : String → HttpOutcome) (cfgUrl : String)
    (dag_run_id : JVal) (t : Nat) : JVal × List Msg × List TransportCall :=
  let api_url := stateUrl cfgUrl dag_run_id
  let call : TransportCall := ⟨t, api_url, 10⟩
  match resp api_url with
  | .ok data => (dictGet data "state" .jnull, [], [call])
  | .connectionError e => (.jnull, [.failedGetState (.connErr e)], [call])
  | .httpError status _ _ e => (.jnull, [.failedGetState (.httpErr status e)], [call])
  | .badJson e => (.jnull, [.failedGetState (.jsonDecodeErr e)], [call])
  | .otherReqError e => (.jnull, [.failedGetState (.otherErr e)], [call])

/-- The observable `state` value of one state query (first component of
`get_dag_run_state`). -/
def observedState (o : HttpOutcome) : JVal :=
  match o with
  | .ok data => dictGet data "state" .jnull
  | _ => .jnull

/-- True when one state-query answer lets the poll loop continue: the query
succeeded and the state is neither `None` nor terminal. -/
def nonTerminalOk (o : HttpOutcome) : Bool :=
  !(isNone (observedState o) || isStr "success" (observedState o)
    || isStr "failed" (observedState o))

/-- Result of `Command.wait_for_completion`: the returned boolean, the console
lines, and the state queries issued. -/
structure WaitOut where
  result : Bool
  log : List Msg
  calls : List TransportCall

/-- The `while time.time() - start_time < timeout` loop of
`Command.wait_for_completion`, under the discrete-time model (queries take
zero time, `time.sleep(2)` advances the clock by 2).  `stateResp i` answers
the `i`-th state query; `t` is the elapsed poll-clock time (`t = 2 * i`).
The three checks mirror the Python `if state is None` /
`if state == "success"` / `if state == "failed"` in order. -/
def wait_loop (stateResp : Nat → String → HttpOutcome) (cfgUrl : String)
    (dag_run_id : JVal) (timeout t i : Nat) : WaitOut :=
  if _h : t < timeout then
    match get_dag_run_state (stateResp i) cfgUrl dag_run_id t with
    | (state, lg, cs) =>
      if isNone state then
        ⟨false, lg ++ [.failedGetState2], cs⟩
      else if isStr "success" state then
        ⟨true, lg ++ [.completedIn t], cs⟩
      else if isStr "failed" state then
        ⟨false, lg ++ [.runFailedAfter t], cs⟩
      else
        let rest := wait_loop stateResp cfgUrl dag_run_id timeout (t + 2) (i + 1)
        ⟨rest.result, lg ++ [.stillRunning state t] ++ rest.log, cs ++ rest.calls⟩
  else
    ⟨false, [.timeoutReached timeout], []⟩
termination_by timeout - t
decreasing_by omega

/-- `Command.wait_for_completion`: prints the waiting banner, then runs the
poll loop from time 0. -/
def wait_for_completion (stateResp : Nat → String → HttpOutcome) (cfgUrl : String)
    (dag_run_id : JVal) (timeout : Nat) : WaitOut :=
  let r := wait_loop stateResp cfgUrl dag_run_id timeout 0 0
  ⟨r.result, .waiting timeout :: r.log, r.calls⟩

/-- The observable outcome of `Command.handle`: console lines and HTTP calls
issued (the command itself returns `None` in every path). -/
structure HandleOut where
  log : List Msg
  calls : List TransportCall

/-- `Command.handle`: trigger, report, optionally wait.  `if not dag_run`
is Python falsiness: `None` (trigger failed) or an empty dict.  The run
identifier and state are read once with `dict.get` and the identifier is
passed verbatim to `wait_for_completion`. -/
def handle (trigResp : String → HttpOutcome) (stateResp : Nat → String → HttpOutcome)
    (cfgUrl : String) (wait : Bool) (timeout : Nat) : HandleOut :=
  let tr := trigger_dag trigResp cfgUrl
  let base : List Msg := .triggering cfgUrl :: tr.2.1
  match tr.1 with
  | none => ⟨base ++ [.failedTriggerRun], tr.2.2⟩
  | some dag_run =>
    if dag_run.isEmpty then
      ⟨base ++ [.failedTriggerRun], tr.2.2⟩
    else
      let dag_run_id := dictGet dag_run "dag_run_id" .jnull
      let state := dictGet dag_run "state" .jnull
      let base2 := base ++
        [.dagRunTriggered dag_run_id, .stateLine state, .viewInUi cfgUrl dag_run_id]
      if wait then
        let w := wait_for_completion stateResp cfgUrl dag_run_id timeout
        ⟨base2 ++ w.log ++ (if w.result then [] else [.didNotComplete]),
         tr.2.2 ++ w.calls⟩
      else
        ⟨base2, tr.2.2⟩

/-- The process exit status of `manage.py trigger_sync`.  A Django management
command exits non-zero only when `handle` raises (`CommandError` or another
exception); `Command.handle` returns `None` on every path and `BaseCommand.error`
only writes a styled line — it cannot raise, since `trigger_dag` calls it twice
in sequence and then executes `return None`, and `wait_for_completion` returns
`False` after calling it.  So the exit status is 0 for every outcome. -/
def commandExitCode (_ : HandleOut) : Nat := 0

/-- The error lines printed inside `get_dag_run_state` for each response kind
(empty for a 2xx JSON body). -/
def stateMsgs : HttpOutcome → List Msg
  | .ok _ => []
  | .connectionError e => [.failedGetState (.connErr e)]
  | .httpError status _ _ e => [.failedGetState (.httpErr status e)]
  | .badJson e => [.failedGetState (.jsonDecodeErr e)]
  | .otherReqError e => [.failedGetState (.otherErr e)]

theorem get_dag_run_state_eq (resp : String → HttpOutcome) (cfgUrl : String)
    (dag_run_id : JVal) (t : Nat) :
    get_dag_run_state resp cfgUrl dag_run_id t =
      (observedState (resp (stateUrl cfgUrl dag_run_id)),
       stateMsgs (resp (stateUrl cfgUrl dag_run_id)),
       [⟨t, stateUrl cfgUrl dag_run_id, 10⟩]) := by
  cases h : resp (stateUrl cfgUrl dag_run_id) <;>
    simp [get_dag_run_state, observedState, stateMsgs, h]

theorem observedState_of_failure {o : HttpOutcome} (h : o.isFailure = true) :
    observedState o = .jnull := by
  cases o <;> simp_all [HttpOutcome.isFailure, observedState]

theorem stateMsgs_of_nonTerminalOk {o : HttpOutcome} (h : nonTerminalOk o = true) :
    stateMsgs o = [] := by
  cases o <;> simp_all [nonTerminalOk, observedState, isNone, stateMsgs]

theorem branch_conds_of_nonTerminalOk {o : HttpOutcome} (h : nonTerminalOk o = true) :
    isNone (observedState o) = false ∧ isStr "success" (observedState o) = false ∧
      isStr "failed" (observedState o) = false := by
  simp only [nonTerminalOk, Bool.not_eq_true', Bool.or_eq_false_iff] at h
  exact ⟨h.1.1, h.1.2, h.2⟩

theorem range_map_succ_shift {α : Type} (m : Nat) (f g : Nat → α)
    (hfg : ∀ k, f (k + 1) = g k) :
    (List.range (m + 1)).map f = f 0 :: (List.range m).map g := by
  rw [List.range_succ_eq_map, List.map_cons, List.map_map]
  refine congrArg _ (List.map_congr_left ?_)
  intro k _
  simpa using hfg k

/-- Every state query issued by the poll loop targets
`stateUrl cfgUrl dag_run_id` with the fixed 10-second per-call timeout. -/
theorem wait_loop_calls (stateResp : Nat → String → HttpOutcome) (cfgUrl : String)
    (dag_run_id : JVal) (timeout : Nat) :
    ∀ n t i, timeout - t ≤ n →
      ∀ c ∈ (wait_loop stateResp cfgUrl dag_run_id timeout t i).calls,
        c.url = stateUrl cfgUrl dag_run_id ∧ c.timeoutSecs = 10 := by
  intro n
  induction n with
  | zero =>
    intro t i hn c hc
    rw [wait_loop] at hc
    have ht : ¬ t < timeout := by omega
    simp [ht] at hc
  | succ n ih =>
    intro t i hn c hc
    rw [wait_loop] at hc
    by_cases ht : t < timeout
    · simp only [dif_pos ht, get_dag_run_state_eq] at hc
      split at hc
      · simp at hc
        simp [hc]
      · split at hc
        · simp at hc
          simp [hc]
        · split at hc
          · simp at hc
            simp [hc]
          · simp only [List.mem_append, List.mem_singleton] at hc
            rcases hc with hc | hc
            · simp [hc]
            · exact ih (t + 2) (i + 1) (by omega) c hc
    · simp [ht] at hc

/-- C8: once the run identifier is extracted from the trigger response, every
state query issued by the command uses exactly that identifier: the first HTTP
call is the trigger POST, and every later call's URL is the state endpoint
with the identifier interpolated verbatim (it is never re-derived, modified,
or replaced). -/
theorem run_id_used_verbatim (trigResp : String → HttpOutcome)
    (stateResp : Nat → String → HttpOutcome) (cfgUrl : String) (wait : Bool)
    (timeout : Nat) (body : List (String × JVal)) (rid : String)
    (hresp : trigResp (triggerUrl cfgUrl) = .ok body)
    (hid : dictGet body "dag_run_id" .jnull = .jstr rid) :
    (handle trigResp stateResp cfgUrl wait timeout).calls.head? =
      some ⟨0, triggerUrl cfgUrl, 10⟩ ∧
    ∀ c ∈ (handle trigResp stateResp cfgUrl wait timeout).calls.tail,
      c.url = cfgUrl ++ "/api/v1/dags/opencve/dagRuns/" ++ rid := by
  have hne : body.isEmpty = false := by
    cases body with
    | nil => simp [dictGet, List.lookup] at hid
    | cons a l => simp
  have hurl : stateUrl cfgUrl (.jstr rid) =
      cfgUrl ++ "/api/v1/dags/opencve/dagRuns/" ++ rid := by
    simp [stateUrl, pyStr]
  unfold handle
  simp only [trigger_dag, hresp, hne, Bool.false_eq_true, if_false, hid]
  cases wait with
  | false => simp
  | true =>
    simp only [if_true, wait_for_completion]
    constructor
    · simp
    · intro c hc
      simp only [List.singleton_append, List.tail_cons] at hc
      rw [← hurl]
      exact (wait_loop_calls stateResp cfgUrl (.jstr rid) timeout (timeout - 0) 0 0
        (by omega) c (by simpa using hc)).1

/-- C8 witness: a concrete trigger response carrying
`dag_run_id = "manual__2024-01-01"`, polled against a service that keeps
answering `running`. -/
theorem run_id_used_verbatim_witness :
    (fun _ : String => HttpOutcome.ok
        [("dag_run_id", .jstr "manual__2024-01-01"), ("state", .jstr "queued")])
        (triggerUrl "http://localhost:8080") =
      .ok [("dag_run_id", .jstr "manual__2024-01-01"), ("state", .jstr "queued")] ∧
    dictGet [("dag_run_id", JVal.jstr "manual__2024-01-01"), ("state", .jstr "queued")]
        "dag_run_id" .jnull = .jstr "manual__2024-01-01" ∧
    ((handle
        (fun _ => .ok [("dag_run_id", .jstr "manual__2024-01-01"), ("state", .jstr "queued")])
        (fun _ _ => .ok [("state", .jstr "running")])
        "http://localhost:8080" true 4).calls.head? =
      some ⟨0, triggerUrl "http://localhost:8080", 10⟩ ∧
    ∀ c ∈ (handle
        (fun _ => .ok [("dag_run_id", .jstr "manual__2024-01-01"), ("state", .jstr "queued")])
        (fun _ _ => .ok [("state", .jstr "running")])
        "http://localhost:8080" true 4).calls.tail,
      c.url = "http://localhost:8080" ++ "/api/v1/dags/opencve/dagRuns/"
        ++ "manual__2024-01-01") :=
  ⟨rfl, rfl,
   run_id_used_verbatim
     (fun _ => .ok [("dag_run_id", .jstr "manual__2024-01-01"), ("state", .jstr "queued")])
     (fun _ _ => .ok [("state", .jstr "running")])
     "http://localhost:8080" true 4
     [("dag_run_id", .jstr "manual__2024-01-01"), ("state", .jstr "queued")]
     "manual__2024-01-01" rfl rfl⟩

/-- Full run of the poll loop when every query that can be issued before the
deadline answers with a non-terminal state: the loop times out after exactly
`⌈(timeout − t)/2⌉` further queries, issued at 2-second steps, all before the
deadline. -/
theorem wait_loop_never_terminal (stateResp : Nat → String → HttpOutcome)
    (cfgUrl : String) (dag_run_id : JVal) (timeout : Nat)
    (h : ∀ j, j < (timeout + 1) / 2 →
      nonTerminalOk (stateResp j (stateUrl cfgUrl dag_run_id)) = true) :
    ∀ n i, timeout - 2 * i ≤ n →
      wait_loop stateResp cfgUrl dag_run_id timeout (2 * i) i =
        ⟨false,
         (List.range ((timeout - 2 * i + 1) / 2)).map
           (fun k => .stillRunning
             (observedState (stateResp (i + k) (stateUrl cfgUrl dag_run_id)))
             (2 * i + 2 * k))
           ++ [.timeoutReached timeout],
         (List.range ((timeout - 2 * i + 1) / 2)).map
           (fun k => ⟨2 * i + 2 * k, stateUrl cfgUrl dag_run_id, 10⟩)⟩ := by
  intro n
  induction n with
  | zero =>
    intro i hn
    have ht : ¬ 2 * i < timeout := by omega
    have hm : (timeout - 2 * i + 1) / 2 = 0 := by omega
    rw [wait_loop]
    simp [ht, hm]
  | succ n ih =>
    intro i hn
    by_cases ht : 2 * i < timeout
    · have hnt := h i (by omega)
      obtain ⟨h1, h2, h3⟩ := branch_conds_of_nonTerminalOk hnt
      have hlg := stateMsgs_of_nonTerminalOk hnt
      rw [wait_loop]
      simp only [dif_pos ht, get_dag_run_state_eq, h1, h2, h3, hlg,
        Bool.false_eq_true, if_false]
      have e2 : 2 * i + 2 = 2 * (i + 1) := by omega
      rw [e2, ih (i + 1) (by omega)]
      have hm : (timeout - 2 * i + 1) / 2 = (timeout - 2 * (i + 1) + 1) / 2 + 1 := by
        omega
      rw [hm]
      rw [range_map_succ_shift _
        (fun k => Msg.stillRunning
          (observedState (stateResp (i + k) (stateUrl cfgUrl dag_run_id)))
          (2 * i + 2 * k))
        (fun k => Msg.stillRunning
          (observedState (stateResp (i + 1 + k) (stateUrl cfgUrl dag_run_id)))
          (2 * (i + 1) + 2 * k))
        (fun k => by
          simp only [show i + (k + 1) = i + 1 + k by omega,
            show 2 * i + 2 * (k + 1) = 2 * (i + 1) + 2 * k by omega])]
      rw [range_map_succ_shift _
        (fun k => TransportCall.mk (2 * i + 2 * k) (stateUrl cfgUrl dag_run_id) 10)
        (fun k => TransportCall.mk (2 * (i + 1) + 2 * k) (stateUrl cfgUrl dag_run_id) 10)
        (fun k => by
          simp only [show 2 * i + 2 * (k + 1) = 2 * (i + 1) + 2 * k by omega])]
      simp
    · have hm : (timeout - 2 * i + 1) / 2 = 0 := by omega
      rw [wait_loop]
      simp [ht, hm]

/-- C2: when no query answers a terminal state before the deadline, the wait
loop returns `False` reporting `Timeout reached (timeout s)` — the reported
elapsed time is the deadline itself — the deadline is checked before each
query (every recorded query start time is `< timeout`), and exactly
`⌈timeout/2⌉` queries are issued, one per 2-second step of the poll clock. -/
theorem wait_times_out (stateResp : Nat → String → HttpOutcome) (cfgUrl : String)
    (dag_run_id : JVal) (timeout : Nat)
    (h : ∀ j, j < (timeout + 1) / 2 →
      nonTerminalOk (stateResp j (stateUrl cfgUrl dag_run_id)) = true) :
    (wait_for_completion stateResp cfgUrl dag_run_id timeout).result = false ∧
    (wait_for_completion stateResp cfgUrl dag_run_id timeout).log.getLast? =
      some (.timeoutReached timeout) ∧
    (wait_for_completion stateResp cfgUrl dag_run_id timeout).calls.length =
      (timeout + 1) / 2 ∧
    ∀ c ∈ (wait_for_completion stateResp cfgUrl dag_run_id timeout).calls,
      c.startTime < timeout := by
  have h0 := wait_loop_never_terminal stateResp cfgUrl dag_run_id timeout h
    (timeout - 2 * 0) 0 (by omega)
  rw [show (2 : Nat) * 0 = 0 from rfl] at h0
  unfold wait_for_completion
  rw [h0]
  refine ⟨rfl, ?_, ?_, ?_⟩
  · show (Msg.waiting timeout ::
      ((List.range ((timeout - 0 + 1) / 2)).map _ ++ [Msg.timeoutReached timeout])).getLast?
      = some (Msg.timeoutReached timeout)
    rw [← List.singleton_append, ← List.append_assoc, List.getLast?_concat]
  · simp
  · intro c hc
    simp only [List.mem_map, List.mem_range] at hc
    obtain ⟨k, hk, rfl⟩ := hc
    show 2 * 0 + 2 * k < timeout
    omega

/-- C2 witness: deadline 5 s against a service that always answers `running`:
the loop issues ⌈5/2⌉ = 3 queries (at 0 s, 2 s, 4 s, all before the deadline)
and reports `Timeout reached (5s)`. -/
theorem wait_times_out_witness :
    (∀ j, j < (5 + 1) / 2 →
      nonTerminalOk ((fun _ _ => HttpOutcome.ok [("state", .jstr "running")]) j
        (stateUrl "http://localhost:8080" (.jstr "r1"))) = true) ∧
    ((wait_for_completion (fun _ _ => .ok [("state", .jstr "running")])
        "http://localhost:8080" (.jstr "r1") 5).result = false ∧
     (wait_for_completion (fun _ _ => .ok [("state", .jstr "running")])
        "http://localhost:8080" (.jstr "r1") 5).log.getLast? =
       some (.timeoutReached 5) ∧
     (wait_for_completion (fun _ _ => .ok [("state", .jstr "running")])
        "http://localhost:8080" (.jstr "r1") 5).calls.length = (5 + 1) / 2 ∧
     ∀ c ∈ (wait_for_completion (fun _ _ => .ok [("state", .jstr "running")])
        "http://localhost:8080" (.jstr "r1") 5).calls,
       c.startTime < 5) :=
  ⟨fun _ _ => rfl,
   wait_times_out (fun _ _ => .ok [("state", .jstr "running")])
     "http://localhost:8080" (.jstr "r1") 5 (fun _ _ => rfl)⟩

/-- Run of the poll loop when queries `i, …, i+k-1` answer non-terminal states
and query `i+k` answers `failed`: the loop stops at query `i+k`, returns
`False` reporting the failure, and issues no further query. -/
theorem wait_loop_run_failed (stateResp : Nat → String → HttpOutcome)
    (cfgUrl : String) (dag_run_id : JVal) (timeout : Nat) :
    ∀ k i,
      (∀ j, j < k →
        nonTerminalOk (stateResp (i + j) (stateUrl cfgUrl dag_run_id)) = true) →
      observedState (stateResp (i + k) (stateUrl cfgUrl dag_run_id)) = .jstr "failed" →
      2 * (i + k) < timeout →
      wait_loop stateResp cfgUrl dag_run_id timeout (2 * i) i =
        ⟨false,
         (List.range k).map
           (fun j => .stillRunning
             (observedState (stateResp (i + j) (stateUrl cfgUrl dag_run_id)))
             (2 * (i + j)))
           ++ [.runFailedAfter (2 * (i + k))],
         (List.range (k + 1)).map
           (fun j => ⟨2 * (i + j), stateUrl cfgUrl dag_run_id, 10⟩)⟩ := by
  intro k
  induction k with
  | zero =>
    intro i hpre hfail ht
    have ht' : 2 * i < timeout := by omega
    have hlg : stateMsgs (stateResp (i + 0) (stateUrl cfgUrl dag_run_id)) = [] := by
      cases hr : stateResp (i + 0) (stateUrl cfgUrl dag_run_id) <;>
        simp_all [observedState, stateMsgs]
    rw [wait_loop]
    simp only [Nat.add_zero] at hfail hlg
    simp [ht', get_dag_run_state_eq, hfail, hlg, isNone, isStr]
    simp [List.range_succ]
  | succ k ih =>
    intro i hpre hfail ht
    have ht' : 2 * i < timeout := by omega
    have hnt := hpre 0 (by omega)
    rw [Nat.add_zero] at hnt
    obtain ⟨h1, h2, h3⟩ := branch_conds_of_nonTerminalOk hnt
    have hlg := stateMsgs_of_nonTerminalOk hnt
    rw [wait_loop]
    simp only [dif_pos ht', get_dag_run_state_eq, h1, h2, h3, hlg,
      Bool.false_eq_true, if_false]
    have e2 : 2 * i + 2 = 2 * (i + 1) := by omega
    rw [e2, ih (i + 1)
      (fun j hj => by
        have := hpre (j + 1) (by omega)
        simpa [show i + (j + 1) = i + 1 + j by omega] using this)
      (by simpa [show i + (k + 1) = i + 1 + k by omega] using hfail)
      (by omega)]
    rw [range_map_succ_shift _
      (fun j => Msg.stillRunning
        (observedState (stateResp (i + j) (stateUrl cfgUrl dag_run_id)))
        (2 * (i + j)))
      (fun j => Msg.stillRunning
        (observedState (stateResp (i + 1 + j) (stateUrl cfgUrl dag_run_id)))
        (2 * (i + 1 + j)))
      (fun j => by
        simp only [show i + (j + 1) = i + 1 + j by omega])]
    rw [range_map_succ_shift _
      (fun j => TransportCall.mk (2 * (i + j)) (stateUrl cfgUrl dag_run_id) 10)
      (fun j => TransportCall.mk (2 * (i + 1 + j)) (stateUrl cfgUrl dag_run_id) 10)
      (fun j => by
        simp only [show i + (j + 1) = i + 1 + j by omega])]
    simp [show i + (k + 1) = i + 1 + k by omega]

/-- C3: when query `k` (issued before the deadline, after `k` non-terminal
answers) reports state `failed`, the wait loop returns `False` at once with
the `DAG run failed after (2k)s` line — a report distinct from every
transport-error line (`failedGetState`) — and issues exactly `k + 1` queries:
none after the `failed` observation. -/
theorem run_failed_stops_polling (stateResp : Nat → String → HttpOutcome)
    (cfgUrl : String) (dag_run_id : JVal) (timeout k : Nat)
    (hpre : ∀ j, j < k →
      nonTerminalOk (stateResp j (stateUrl cfgUrl dag_run_id)) = true)
    (hfail : observedState (stateResp k (stateUrl cfgUrl dag_run_id)) = .jstr "failed")
    (ht : 2 * k < timeout) :
    wait_for_completion stateResp cfgUrl dag_run_id timeout =
      ⟨false,
       .waiting timeout ::
         (List.range k).map
           (fun j => .stillRunning
             (observedState (stateResp j (stateUrl cfgUrl dag_run_id))) (2 * j))
         ++ [.runFailedAfter (2 * k)],
       (List.range (k + 1)).map
         (fun j => ⟨2 * j, stateUrl cfgUrl dag_run_id, 10⟩)⟩ ∧
    ∀ e, Msg.failedGetState e ∉
      (wait_for_completion stateResp cfgUrl dag_run_id timeout).log := by
  have h0 := wait_loop_run_failed stateResp cfgUrl dag_run_id timeout k 0
    (fun j hj => by simpa using hpre j hj)
    (by simpa using hfail) (by omega)
  rw [show (2 : Nat) * 0 = 0 from rfl] at h0
  have hw : wait_for_completion stateResp cfgUrl dag_run_id timeout =
      ⟨false,
       .waiting timeout ::
         (List.range k).map
           (fun j => .stillRunning
             (observedState (stateResp j (stateUrl cfgUrl dag_run_id))) (2 * j))
         ++ [.runFailedAfter (2 * k)],
       (List.range (k + 1)).map
         (fun j => ⟨2 * j, stateUrl cfgUrl dag_run_id, 10⟩)⟩ := by
    unfold wait_for_completion
    rw [h0]
    simp
  refine ⟨hw, ?_⟩
  intro e hm
  rw [hw] at hm
  simp only [List.mem_cons, List.mem_append, List.mem_map, List.mem_range,
    List.mem_singleton] at hm
  rcases hm with hm | ⟨⟨j, _, hm⟩ | hm⟩ <;> simp at hm

/-- C3 witness: the first query answers `running`, the second answers `failed`
(at 2 s, before the 300 s deadline): the loop stops after exactly 2 queries. -/
theorem run_failed_stops_polling_witness :
    (∀ j, j < 1 →
      nonTerminalOk ((fun i _ => if i = 0 then HttpOutcome.ok [("state", .jstr "running")]
          else .ok [("state", .jstr "failed")]) j
        (stateUrl "http://localhost:8080" (.jstr "r1"))) = true) ∧
    observedState ((fun i _ => if i = 0 then HttpOutcome.ok [("state", .jstr "running")]
        else .ok [("state", .jstr "failed")]) 1
      (stateUrl "http://localhost:8080" (.jstr "r1"))) = .jstr "failed" ∧
    2 * 1 < 300 ∧
    (wait_for_completion
        (fun i _ => if i = 0 then .ok [("state", .jstr "running")]
          else .ok [("state", .jstr "failed")])
        "http://localhost:8080" (.jstr "r1") 300 =
      ⟨false,
       .waiting 300 ::
         (List.range 1).map
           (fun j => .stillRunning
             (observedState ((fun i _ => if i = 0 then HttpOutcome.ok [("state", .jstr "running")]
                 else .ok [("state", .jstr "failed")]) j
               (stateUrl "http://localhost:8080" (.jstr "r1")))) (2 * j))
         ++ [.runFailedAfter (2 * 1)],
       (List.range (1 + 1)).map
         (fun j => ⟨2 * j, stateUrl "http://localhost:8080" (.jstr "r1"), 10⟩)⟩ ∧
     ∀ e, Msg.failedGetState e ∉
       (wait_for_completion
          (fun i _ => if i = 0 then .ok [("state", .jstr "running")]
            else .ok [("state", .jstr "failed")])
          "http://localhost:8080" (.jstr "r1") 300).log) :=
  ⟨by decide, rfl, by decide,
   run_failed_stops_polling
     (fun i _ => if i = 0 then .ok [("state", .jstr "running")]
       else .ok [("state", .jstr "failed")])
     "http://localhost:8080" (.jstr "r1") 300 1
     (by decide) rfl (by decide)⟩

/-- When the first query the poll loop issues fails with a `RequestException`,
the loop prints the interpolated exception and `Failed to get DAG run state`,
and returns `False` at once after that single query. -/
theorem wait_query_failure (stateResp : Nat → String → HttpOutcome)
    (cfgUrl : String) (dag_run_id : JVal) (timeout : Nat)
    (hT : 0 < timeout)
    (hq : (stateResp 0 (stateUrl cfgUrl dag_run_id)).isFailure = true) :
    wait_for_completion stateResp cfgUrl dag_run_id timeout =
      ⟨false,
       .waiting timeout ::
         stateMsgs (stateResp 0 (stateUrl cfgUrl dag_run_id)) ++ [.failedGetState2],
       [⟨0, stateUrl cfgUrl dag_run_id, 10⟩]⟩ := by
  have hobs := observedState_of_failure hq
  unfold wait_for_completion
  rw [wait_loop]
  simp [hT, get_dag_run_state_eq, hobs, isNone]

/-- Run of the poll loop when queries `i, …, i+k-1` answer non-terminal states
and query `i+k` fails with a `RequestException`: the loop stops at query
`i+k`, prints the interpolated exception and `Failed to get DAG run state`,
returns `False`, and issues no further query. -/
theorem wait_loop_query_failure_at (stateResp : Nat → String → HttpOutcome)
    (cfgUrl : String) (dag_run_id : JVal) (timeout : Nat) :
    ∀ k i,
      (∀ j, j < k →
        nonTerminalOk (stateResp (i + j) (stateUrl cfgUrl dag_run_id)) = true) →
      (stateResp (i + k) (stateUrl cfgUrl dag_run_id)).isFailure = true →
      2 * (i + k) < timeout →
      wait_loop stateResp cfgUrl dag_run_id timeout (2 * i) i =
        ⟨false,
         (List.range k).map
           (fun j => .stillRunning
             (observedState (stateResp (i + j) (stateUrl cfgUrl dag_run_id)))
             (2 * (i + j)))
           ++ stateMsgs (stateResp (i + k) (stateUrl cfgUrl dag_run_id))
           ++ [.failedGetState2],
         (List.range (k + 1)).map
           (fun j => ⟨2 * (i + j), stateUrl cfgUrl dag_run_id, 10⟩)⟩ := by
  intro k
  induction k with
  | zero =>
    intro i hpre hq ht
    have ht' : 2 * i < timeout := by omega
    rw [Nat.add_zero] at hq
    have hobs := observedState_of_failure hq
    rw [wait_loop]
    simp [ht', get_dag_run_state_eq, hobs, isNone]
    simp [List.range_succ]
  | succ k ih =>
    intro i hpre hq ht
    have ht' : 2 * i < timeout := by omega
    have hnt := hpre 0 (by omega)
    rw [Nat.add_zero] at hnt
    obtain ⟨h1, h2, h3⟩ := branch_conds_of_nonTerminalOk hnt
    have hlg := stateMsgs_of_nonTerminalOk hnt
    rw [wait_loop]
    simp only [dif_pos ht', get_dag_run_state_eq, h1, h2, h3, hlg,
      Bool.false_eq_true, if_false]
    have e2 : 2 * i + 2 = 2 * (i + 1) := by omega
    rw [e2, ih (i + 1)
      (fun j hj => by
        have := hpre (j + 1) (by omega)
        simpa [show i + (j + 1) = i + 1 + j by omega] using this)
      (by simpa [show i + (k + 1) = i + 1 + k by omega] using hq)
      (by omega)]
    rw [range_map_succ_shift _
      (fun j => Msg.stillRunning
        (observedState (stateResp (i + j) (stateUrl cfgUrl dag_run_id)))
        (2 * (i + j)))
      (fun j => Msg.stillRunning
        (observedState (stateResp (i + 1 + j) (stateUrl cfgUrl dag_run_id)))
        (2 * (i + 1 + j)))
      (fun j => by
        simp only [show i + (j + 1) = i + 1 + j by omega])]
    rw [range_map_succ_shift _
      (fun j => TransportCall.mk (2 * (i + j)) (stateUrl cfgUrl dag_run_id) 10)
      (fun j => TransportCall.mk (2 * (i + 1 + j)) (stateUrl cfgUrl dag_run_id) 10)
      (fun j => by
        simp only [show i + (j + 1) = i + 1 + j by omega])]
    simp [show i + (k + 1) = i + 1 + k by omega]

/-- C1: a state-query failure at any point of the polling loop (any
`RequestException`, including a non-2xx response such as HTTP 500) makes the
poll loop return `False` immediately: after `k` non-terminal answers, the
failing query `k` is the last query issued — exactly `k + 1` queries, so no
retry of the failed query — and when the failure is an `HTTPError` the printed
error line carries the exception as `httpErr` with the service's original
status code: a kind distinct from `connErr`, `jsonDecodeErr` and `otherErr`. -/
theorem query_failure_returns_error (stateResp : Nat → String → HttpOutcome)
    (cfgUrl : String) (dag_run_id : JVal) (timeout k : Nat)
    (hpre : ∀ j, j < k →
      nonTerminalOk (stateResp j (stateUrl cfgUrl dag_run_id)) = true)
    (hq : (stateResp k (stateUrl cfgUrl dag_run_id)).isFailure = true)
    (ht : 2 * k < timeout) :
    (wait_for_completion stateResp cfgUrl dag_run_id timeout).result = false ∧
    (wait_for_completion stateResp cfgUrl dag_run_id timeout).calls =
      (List.range (k + 1)).map
        (fun j => ⟨2 * j, stateUrl cfgUrl dag_run_id, 10⟩) ∧
    (wait_for_completion stateResp cfgUrl dag_run_id timeout).log =
      .waiting timeout ::
        (List.range k).map
          (fun j => .stillRunning
            (observedState (stateResp j (stateUrl cfgUrl dag_run_id))) (2 * j))
        ++ stateMsgs (stateResp k (stateUrl cfgUrl dag_run_id))
        ++ [.failedGetState2] ∧
    ∀ status text jsonBody excStr,
      stateResp k (stateUrl cfgUrl dag_run_id) =
          .httpError status text jsonBody excStr →
      Msg.failedGetState (.httpErr status excStr) ∈
        (wait_for_completion stateResp cfgUrl dag_run_id timeout).log := by
  have h0 := wait_loop_query_failure_at stateResp cfgUrl dag_run_id timeout k 0
    (fun j hj => by simpa using hpre j hj)
    (by simpa using hq) (by omega)
  simp only [Nat.zero_add, Nat.mul_zero] at h0
  unfold wait_for_completion
  rw [h0]
  refine ⟨rfl, rfl, rfl, ?_⟩
  intro status text jsonBody excStr h
  simp [h, stateMsgs]

/-- C1 witness: the first state query answers `running`, the second (at 2 s,
before the 300 s deadline) is answered with HTTP 500; the loop returns right
after that failing query — exactly 2 queries — and its error line carries
status 500. -/
theorem query_failure_returns_error_witness :
    (∀ j, j < 1 →
      nonTerminalOk ((fun i _ => if i = 0 then HttpOutcome.ok [("state", .jstr "running")]
          else .httpError 500 "Internal Server Error"
            none "500 Server Error: Internal Server Error for url: x") j
        (stateUrl "http://localhost:8080" (.jstr "r1"))) = true) ∧
    ((fun i _ => if i = 0 then HttpOutcome.ok [("state", .jstr "running")]
        else .httpError 500 "Internal Server Error"
          none "500 Server Error: Internal Server Error for url: x") 1
      (stateUrl "http://localhost:8080" (.jstr "r1"))).isFailure = true ∧
    2 * 1 < 300 ∧
    ((wait_for_completion
        (fun i _ => if i = 0 then .ok [("state", .jstr "running")]
          else .httpError 500 "Internal Server Error"
            none "500 Server Error: Internal Server Error for url: x")
        "http://localhost:8080" (.jstr "r1") 300).result = false ∧
     (wait_for_completion
        (fun i _ => if i = 0 then .ok [("state", .jstr "running")]
          else .httpError 500 "Internal Server Error"
            none "500 Server Error: Internal Server Error for url: x")
        "http://localhost:8080" (.jstr "r1") 300).calls =
       (List.range (1 + 1)).map
         (fun j => ⟨2 * j, stateUrl "http://localhost:8080" (.jstr "r1"), 10⟩) ∧
     (wait_for_completion
        (fun i _ => if i = 0 then .ok [("state", .jstr "running")]
          else .httpError 500 "Internal Server Error"
            none "500 Server Error: Internal Server Error for url: x")
        "http://localhost:8080" (.jstr "r1") 300).log =
       .waiting 300 ::
         (List.range 1).map
           (fun j => .stillRunning
             (observedState ((fun i _ => if i = 0 then HttpOutcome.ok [("state", .jstr "running")]
                 else .httpError 500 "Internal Server Error"
                   none "500 Server Error: Internal Server Error for url: x") j
               (stateUrl "http://localhost:8080" (.jstr "r1")))) (2 * j))
         ++ stateMsgs ((fun i _ => if i = 0 then HttpOutcome.ok [("state", .jstr "running")]
             else .httpError 500 "Internal Server Error"
               none "500 Server Error: Internal Server Error for url: x") 1
           (stateUrl "http://localhost:8080" (.jstr "r1")))
         ++ [.failedGetState2] ∧
     ∀ status text jsonBody excStr,
       (fun i _ => if i = 0 then HttpOutcome.ok [("state", .jstr "running")]
           else .httpError 500 "Internal Server Error"
             none "500 Server Error: Internal Server Error for url: x") 1
           (stateUrl "http://localhost:8080" (.jstr "r1")) =
         .httpError status text jsonBody excStr →
       Msg.failedGetState (.httpErr status excStr) ∈
         (wait_for_completion
            (fun i _ => if i = 0 then .ok [("state", .jstr "running")]
              else .httpError 500 "Internal Server Error"
                none "500 Server Error: Internal Server Error for url: x")
            "http://localhost:8080" (.jstr "r1") 300).log) :=
  ⟨by decide, rfl, by decide,
   query_failure_returns_error
     (fun i _ => if i = 0 then .ok [("state", .jstr "running")]
       else .httpError 500 "Internal Server Error"
         none "500 Server Error: Internal Server Error for url: x")
     "http://localhost:8080" (.jstr "r1") 300 1
     (by decide) rfl (by decide)⟩

/-- C7 (amended): the command has no synthetic `unknown` state.  A state query
whose 2xx response fails to parse, at any point of the polling loop, yields
Python `None` (`get_dag_run_state` returns `None` on the `JSONDecodeError`),
and the loop treats `None` as fatal, not as a non-terminal state: after `k`
non-terminal answers, a parse failure at query `k` makes the loop print the
failure and return `False` immediately — exactly `k + 1` queries, no further
polling, and no counting of consecutive occurrences. -/
theorem unparseable_state_is_fatal (stateResp : Nat → String → HttpOutcome)
    (cfgUrl : String) (dag_run_id : JVal) (timeout k : Nat) (excStr : String)
    (hpre : ∀ j, j < k →
      nonTerminalOk (stateResp j (stateUrl cfgUrl dag_run_id)) = true)
    (hq : stateResp k (stateUrl cfgUrl dag_run_id) = .badJson excStr)
    (ht : 2 * k < timeout) :
    wait_for_completion stateResp cfgUrl dag_run_id timeout =
      ⟨false,
       .waiting timeout ::
         (List.range k).map
           (fun j => .stillRunning
             (observedState (stateResp j (stateUrl cfgUrl dag_run_id))) (2 * j))
         ++ [.failedGetState (.jsonDecodeErr excStr), .failedGetState2],
       (List.range (k + 1)).map
         (fun j => ⟨2 * j, stateUrl cfgUrl dag_run_id, 10⟩)⟩ := by
  have h0 := wait_loop_query_failure_at stateResp cfgUrl dag_run_id timeout k 0
    (fun j hj => by simpa using hpre j hj)
    (by simp [hq, HttpOutcome.isFailure]) (by omega)
  simp only [Nat.zero_add, Nat.mul_zero] at h0
  unfold wait_for_completion
  rw [h0, hq]
  simp [stateMsgs]

/-- C7 witness: the first query answers `running`, the second (at 2 s, before
the 300 s deadline) has an unparseable response: two queries in total, then
immediate `False`. -/
theorem unparseable_state_is_fatal_witness :
    (∀ j, j < 1 →
      nonTerminalOk ((fun i _ => if i = 0 then HttpOutcome.ok [("state", .jstr "running")]
          else .badJson "Expecting value: line 1 column 1 (char 0)") j
        (stateUrl "http://localhost:8080" (.jstr "r1"))) = true) ∧
    (fun i _ => if i = 0 then HttpOutcome.ok [("state", .jstr "running")]
        else .badJson "Expecting value: line 1 column 1 (char 0)") 1
        (stateUrl "http://localhost:8080" (.jstr "r1")) =
      .badJson "Expecting value: line 1 column 1 (char 0)" ∧
    2 * 1 < 300 ∧
    wait_for_completion
        (fun i _ => if i = 0 then .ok [("state", .jstr "running")]
          else .badJson "Expecting value: line 1 column 1 (char 0)")
        "http://localhost:8080" (.jstr "r1") 300 =
      ⟨false,
       .waiting 300 ::
         (List.range 1).map
           (fun j => .stillRunning
             (observedState ((fun i _ => if i = 0 then HttpOutcome.ok [("state", .jstr "running")]
                 else .badJson "Expecting value: line 1 column 1 (char 0)") j
               (stateUrl "http://localhost:8080" (.jstr "r1")))) (2 * j))
         ++ [.failedGetState (.jsonDecodeErr "Expecting value: line 1 column 1 (char 0)"),
             .failedGetState2],
       (List.range (1 + 1)).map
         (fun j => ⟨2 * j, stateUrl "http://localhost:8080" (.jstr "r1"), 10⟩)⟩ :=
  ⟨by decide, rfl, by decide,
   unparseable_state_is_fatal
     (fun i _ => if i = 0 then .ok [("state", .jstr "running")]
       else .badJson "Expecting value: line 1 column 1 (char 0)")
     "http://localhost:8080" (.jstr "r1") 300 1
     "Expecting value: line 1 column 1 (char 0)" (by decide) rfl (by decide)⟩

/-- C7 counterexample: the first state query's response fails to parse while
the service would keep answering `running` and the deadline (300 s) is far
away.  The claim predicts the loop treats this as a non-terminal `unknown` and
keeps polling; the code issues exactly one query and returns `False` at once,
and no `unknown` state or consecutive-occurrence count exists. -/
theorem unknown_state_counterexample :
    (wait_for_completion
        (fun i _ => if i = 0 then .badJson "Expecting value: line 1 column 1 (char 0)"
          else .ok [("state", .jstr "running")])
        "http://localhost:8080" (.jstr "r1") 300).calls.length = 1 ∧
    (wait_for_completion
        (fun i _ => if i = 0 then .badJson "Expecting value: line 1 column 1 (char 0)"
          else .ok [("state", .jstr "running")])
        "http://localhost:8080" (.jstr "r1") 300).result = false ∧
    (wait_for_completion
        (fun i _ => if i = 0 then .badJson "Expecting value: line 1 column 1 (char 0)"
          else .ok [("state", .jstr "running")])
        "http://localhost:8080" (.jstr "r1") 300).log =
      [.waiting 300,
       .failedGetState (.jsonDecodeErr "Expecting value: line 1 column 1 (char 0)"),
       .failedGetState2] := by
  rw [wait_query_failure
    (fun i _ => if i = 0 then .badJson "Expecting value: line 1 column 1 (char 0)"
      else .ok [("state", .jstr "running")])
    "http://localhost:8080" (.jstr "r1") 300 (by decide) rfl]
  exact ⟨rfl, rfl, rfl⟩

/-- C4: when the trigger call itself fails, the command prints the mapped
failure and `Failed to trigger DAG run`, and returns; the poll loop is never
invoked — the only HTTP call issued is the trigger POST (zero state queries),
whatever the `--wait`/`--timeout` options. -/
theorem trigger_failure_no_polls (trigResp : String → HttpOutcome)
    (stateResp : Nat → String → HttpOutcome) (cfgUrl : String) (wait : Bool)
    (timeout : Nat)
    (hfail : (trigResp (triggerUrl cfgUrl)).isFailure = true) :
    (handle trigResp stateResp cfgUrl wait timeout).calls =
      [⟨0, triggerUrl cfgUrl, 10⟩] ∧
    Msg.failedTriggerRun ∈ (handle trigResp stateResp cfgUrl wait timeout).log ∧
    ∀ excStr, trigResp (triggerUrl cfgUrl) = .connectionError excStr →
      (handle trigResp stateResp cfgUrl wait timeout).log =
        [.triggering cfgUrl, .failedTrigger (.connErr excStr), .failedTriggerRun] := by
  cases h : trigResp (triggerUrl cfgUrl) <;>
    simp_all [handle, trigger_dag, HttpOutcome.isFailure]

/-- C4 witness: the trigger is refused (`--wait` given): the outcome is the
mapped connection failure and no state query is ever issued. -/
theorem trigger_failure_no_polls_witness :
    ((fun _ => HttpOutcome.connectionError "Connection refused")
        (triggerUrl "http://localhost:8080")).isFailure = true ∧
    ((handle (fun _ => .connectionError "Connection refused")
        (fun _ _ => .ok [("state", .jstr "running")])
        "http://localhost:8080" true 300).calls =
      [⟨0, triggerUrl "http://localhost:8080", 10⟩] ∧
     Msg.failedTriggerRun ∈ (handle (fun _ => .connectionError "Connection refused")
        (fun _ _ => .ok [("state", .jstr "running")])
        "http://localhost:8080" true 300).log ∧
     ∀ excStr, (fun _ => HttpOutcome.connectionError "Connection refused")
           (triggerUrl "http://localhost:8080") = .connectionError excStr →
       (handle (fun _ => .connectionError "Connection refused")
          (fun _ _ => .ok [("state", .jstr "running")])
          "http://localhost:8080" true 300).log =
         [.triggering "http://localhost:8080",
          .failedTrigger (.connErr excStr), .failedTriggerRun]) :=
  ⟨rfl,
   trigger_failure_no_polls (fun _ => .connectionError "Connection refused")
     (fun _ _ => .ok [("state", .jstr "running")])
     "http://localhost:8080" true 300 rfl⟩

/-- C9 (amended): the command's process exit status is 0 for every outcome:
`handle` returns normally on every path, so the Django runner reports success
to the shell; failures are signalled only through the error lines. -/
theorem command_always_exits_zero (trigResp : String → HttpOutcome)
    (stateResp : Nat → String → HttpOutcome) (cfgUrl : String) (wait : Bool)
    (timeout : Nat) :
    commandExitCode (handle trigResp stateResp cfgUrl wait timeout) = 0 := rfl

/-- C9 counterexample: the trigger is refused, so the final outcome is not
`success` — `Failed to trigger DAG run` is printed through `self.error` — yet
the process exit status is 0, not non-zero as the claim requires. -/
theorem nonzero_exit_counterexample :
    commandExitCode (handle (fun _ => .connectionError "Connection refused")
      (fun _ _ => .connectionError "Connection refused")
      "http://localhost:8080" false 300) = 0 ∧
    Msg.failedTriggerRun ∈ (handle (fun _ => .connectionError "Connection refused")
      (fun _ _ => .connectionError "Connection refused")
      "http://localhost:8080" false 300).log ∧
    Msg.failedTriggerRun.isError = true := by
  refine ⟨rfl, ?_, rfl⟩
  simp [handle, trigger_dag]

/-- C5 counterexample: a 2xx trigger response whose JSON body lacks
`dag_run_id` (`{"state": "queued"}`).  The view returns HTTP 200 with
`success: true` and `dag_run_id: null` — a success outcome, not a
`decode_failed` error (no such error kind exists in the code). -/
theorem missing_run_id_counterexample :
    (triggerSyncPost (fun _ => .ok [("state", .jstr "queued")])
      "http://airflow-webserver:8080").status = 200 ∧
    (triggerSyncPost (fun _ => .ok [("state", .jstr "queued")])
      "http://airflow-webserver:8080").body.lookup "success" = some (.jbool true) ∧
    (triggerSyncPost (fun _ => .ok [("state", .jstr "queued")])
      "http://airflow-webserver:8080").body.lookup "dag_run_id" = some .jnull :=
  ⟨rfl, rfl, rfl⟩

/-- C5 (amended): a 2xx trigger response lacking `dag_run_id` is not turned
into an error: the view answers HTTP 200 with `success: true` and
`dag_run_id: null`, and the CLI (for a non-empty body) proceeds and prints
`DAG run triggered: None`. -/
theorem missing_run_id_still_success (trigResp : String → HttpOutcome)
    (stateResp : Nat → String → HttpOutcome) (cfgUrl : String) (wait : Bool)
    (timeout : Nat) (body : List (String × JVal))
    (hresp : trigResp (triggerUrl cfgUrl) = .ok body)
    (hmiss : body.lookup "dag_run_id" = none)
    (hne : body.isEmpty = false) :
    (triggerSyncPost trigResp cfgUrl).status = 200 ∧
    (triggerSyncPost trigResp cfgUrl).body.lookup "success" = some (.jbool true) ∧
    (triggerSyncPost trigResp cfgUrl).body.lookup "dag_run_id" = some .jnull ∧
    Msg.dagRunTriggered .jnull ∈ (handle trigResp stateResp cfgUrl wait timeout).log := by
  have hget : dictGet body "dag_run_id" .jnull = .jnull := by
    simp [dictGet, hmiss]
  refine ⟨?_, ?_, ?_, ?_⟩
  · simp [triggerSyncPost, hresp]
  · simp [triggerSyncPost, hresp]
  · simp only [triggerSyncPost, hresp, hget]
    rfl
  · cases wait <;> simp [handle, trigger_dag, hresp, hne, hget]

/-- C5 witness: body `{"state": "queued"}` (non-empty, no run identifier). -/
theorem missing_run_id_still_success_witness :
    (fun _ : String => HttpOutcome.ok [("state", .jstr "queued")])
        (triggerUrl "http://airflow-webserver:8080") =
      .ok [("state", .jstr "queued")] ∧
    ([(("state" : String), JVal.jstr "queued")]).lookup "dag_run_id" = none ∧
    ([(("state" : String), JVal.jstr "queued")]).isEmpty = false ∧
    ((triggerSyncPost (fun _ => .ok [("state", .jstr "queued")])
        "http://airflow-webserver:8080").status = 200 ∧
     (triggerSyncPost (fun _ => .ok [("state", .jstr "queued")])
        "http://airflow-webserver:8080").body.lookup "success" = some (.jbool true) ∧
     (triggerSyncPost (fun _ => .ok [("state", .jstr "queued")])
        "http://airflow-webserver:8080").body.lookup "dag_run_id" = some .jnull ∧
     Msg.dagRunTriggered .jnull ∈
       (handle (fun _ => .ok [("state", .jstr "queued")])
          (fun _ _ => .ok [("state", .jstr "running")])
          "http://airflow-webserver:8080" false 300).log) :=
  ⟨rfl, rfl, rfl,
   missing_run_id_still_success (fun _ => .ok [("state", .jstr "queued")])
     (fun _ _ => .ok [("state", .jstr "running")])
     "http://airflow-webserver:8080" false 300
     [("state", .jstr "queued")] rfl rfl rfl⟩

/-- C6: a 2xx trigger response with a well-formed body (string `dag_run_id`
and `state` fields): the view answers HTTP 200 whose `state` and `dag_run_id`
equal the body's fields, and the CLI without `--wait` prints them and issues
exactly one transport call — the trigger POST with its fixed 10-second
timeout — and zero state queries (elapsed 0 on the poll clock). -/
theorem fire_and_forget (trigResp : String → HttpOutcome)
    (stateResp : Nat → String → HttpOutcome) (cfgUrl : String) (timeout : Nat)
    (body : List (String × JVal)) (rid st : String)
    (hresp : trigResp (triggerUrl cfgUrl) = .ok body)
    (hid : body.lookup "dag_run_id" = some (.jstr rid))
    (hst : body.lookup "state" = some (.jstr st)) :
    (triggerSyncPost trigResp cfgUrl).status = 200 ∧
    (triggerSyncPost trigResp cfgUrl).body.lookup "state" = some (.jstr st) ∧
    (triggerSyncPost trigResp cfgUrl).body.lookup "dag_run_id" = some (.jstr rid) ∧
    handle trigResp stateResp cfgUrl false timeout =
      ⟨[.triggering cfgUrl, .dagRunTriggered (.jstr rid), .stateLine (.jstr st),
        .viewInUi cfgUrl (.jstr rid)],
       [⟨0, triggerUrl cfgUrl, 10⟩]⟩ := by
  have hne : body.isEmpty = false := by
    cases body with
    | nil => simp [List.lookup] at hid
    | cons a l => simp
  have hgid : dictGet body "dag_run_id" .jnull = .jstr rid := by
    simp [dictGet, hid]
  have hgst : dictGet body "state" .jnull = .jstr st := by
    simp [dictGet, hst]
  refine ⟨?_, ?_, ?_, ?_⟩
  · simp [triggerSyncPost, hresp]
  · simp only [triggerSyncPost, hresp, hgst]
    rfl
  · simp only [triggerSyncPost, hresp, hgid]
    rfl
  · simp [handle, trigger_dag, hresp, hne, hgid, hgst]

/-- C6 witness: the spec's concrete scenario — a 2xx response
`{"dag_run_id": "manual__2024-01-01", "state": "queued"}` without waiting. -/
theorem fire_and_forget_witness :
    (fun _ : String => HttpOutcome.ok
        [("dag_run_id", .jstr "manual__2024-01-01"), ("state", .jstr "queued")])
        (triggerUrl "http://localhost:8080") =
      .ok [("dag_run_id", .jstr "manual__2024-01-01"), ("state", .jstr "queued")] ∧
    ([(("dag_run_id" : String), JVal.jstr "manual__2024-01-01"),
      ("state", .jstr "queued")]).lookup "dag_run_id" =
      some (.jstr "manual__2024-01-01") ∧
    ([(("dag_run_id" : String), JVal.jstr "manual__2024-01-01"),
      ("state", .jstr "queued")]).lookup "state" = some (.jstr "queued") ∧
    ((triggerSyncPost (fun _ => .ok
        [("dag_run_id", .jstr "manual__2024-01-01"), ("state", .jstr "queued")])
        "http://localhost:8080").status = 200 ∧
     (triggerSyncPost (fun _ => .ok
        [("dag_run_id", .jstr "manual__2024-01-01"), ("state", .jstr "queued")])
        "http://localhost:8080").body.lookup "state" = some (.jstr "queued") ∧
     (triggerSyncPost (fun _ => .ok
        [("dag_run_id", .jstr "manual__2024-01-01"), ("state", .jstr "queued")])
        "http://localhost:8080").body.lookup "dag_run_id" =
       some (.jstr "manual__2024-01-01") ∧
     handle (fun _ => .ok
         [("dag_run_id", .jstr "manual__2024-01-01"), ("state", .jstr "queued")])
         (fun _ _ => .ok [("state", .jstr "running")])
         "http://localhost:8080" false 300 =
       ⟨[.triggering "http://localhost:8080",
         .dagRunTriggered (.jstr "manual__2024-01-01"),
         .stateLine (.jstr "queued"),
         .viewInUi "http://localhost:8080" (.jstr "manual__2024-01-01")],
        [⟨0, triggerUrl "http://localhost:8080", 10⟩]⟩) :=
  ⟨rfl, rfl, rfl,
   fire_and_forget
     (fun _ => .ok [("dag_run_id", .jstr "manual__2024-01-01"), ("state", .jstr "queued")])
     (fun _ _ => .ok [("state", .jstr "running")])
     "http://localhost:8080" 300
     [("dag_run_id", .jstr "manual__2024-01-01"), ("state", .jstr "queued")]
     "manual__2024-01-01" "queued" rfl rfl rfl⟩

/-- C10 (amended): for every request, `received_count` increases by exactly one
if and only if the request is a POST to `/webhook` whose body parses as JSON —
so on a non-`/webhook` POST (answered 404) or an invalid-JSON body (answered
400) it is unchanged, and it is monotonically non-decreasing.  It counts
*parsed* deliveries, not successfully processed ones: the increment happens
before `format_cve_alert`, so a parsed payload whose processing then raises is
answered 500 with the counter already incremented. -/
theorem webhook_counter_counts_parsed (c : Nat) (r : Request) (p : String)
    (b : PostBody) (e : String) :
    countAfter c r = c + (if isCountedDelivery r then 1 else 0) ∧
    c ≤ countAfter c r ∧
    (p ≠ "/webhook" → (do_POST c p b).resp.status = 404 ∧ (do_POST c p b).count = c) ∧
    (do_POST c "/webhook" (.badJson e)).resp.status = 400 ∧
    (do_POST c "/webhook" (.badJson e)).count = c := by
  have hpost : ∀ (p' : String) (b' : PostBody),
      (do_POST c p' b').count =
        c + (if p' = "/webhook" ∧ b'.parses = true then 1 else 0) := by
    intro p' b'
    unfold do_POST
    by_cases hp : p' = "/webhook"
    · cases b' with
      | notUtf8 e' => simp [hp, PostBody.parses]
      | badJson e' => simp [hp, PostBody.parses]
      | parsed v =>
        cases hf : format_cve_alert v with
        | error e' => simp [hp, PostBody.parses, hf]
        | ok s =>
          cases hl : (do
              let changes ← pyGet v "changes" (.jarr [])
              pyLen changes : Except PyErr Nat) with
          | error e' => simp [hp, PostBody.parses, hf, hl]
          | ok n => simp [hp, PostBody.parses, hf, hl]
    · simp [hp]
  have hget : ∀ (pg sn : String) (sp : Nat),
      (do_GET c pg sn sp).2.2 = c := by
    intro pg sn sp
    unfold do_GET
    split <;> rfl
  refine ⟨?_, ?_, ?_, ?_, ?_⟩
  · cases r with
    | get pg sn sp => simp [countAfter, hget, isCountedDelivery]
    | post p0 b0 =>
      rw [show countAfter c (.post p0 b0) = (do_POST c p0 b0).count from rfl,
        hpost p0 b0]
      by_cases hp : p0 = "/webhook" <;>
        cases b0 <;> simp [isCountedDelivery, PostBody.parses, hp]
  · cases r with
    | get pg sn sp => simp [countAfter, hget]
    | post p0 b0 =>
      rw [show countAfter c (.post p0 b0) = (do_POST c p0 b0).count from rfl,
        hpost p0 b0]
      split <;> omega
  · intro hp
    unfold do_POST
    simp [hp]
  · unfold do_POST
    simp
  · unfold do_POST
    simp

/-- C10 witness: a parsed delivery to `/webhook` increments the counter; a
POST to another path answers 404 leaving it unchanged; an invalid-JSON body
answers 400 leaving it unchanged. -/
theorem webhook_counter_counts_parsed_witness :
    (countAfter 7 (.post "/webhook" (.parsed (.jobj []))) =
      7 + (if isCountedDelivery (.post "/webhook" (.parsed (.jobj []))) then 1 else 0) ∧
     7 ≤ countAfter 7 (.post "/webhook" (.parsed (.jobj []))) ∧
     ("/other" ≠ "/webhook" →
       (do_POST 7 "/other" (.parsed (.jobj []))).resp.status = 404 ∧
       (do_POST 7 "/other" (.parsed (.jobj []))).count = 7) ∧
     (do_POST 7 "/webhook" (.badJson "Expecting value")).resp.status = 400 ∧
     (do_POST 7 "/webhook" (.badJson "Expecting value")).count = 7) ∧
    countAfter 7 (.post "/webhook" (.parsed (.jobj []))) = 8 :=
  ⟨webhook_counter_counts_parsed 7 (.post "/webhook" (.parsed (.jobj [])))
     "/other" (.parsed (.jobj [])) "Expecting value",
   rfl⟩

/-- C10 counterexample: the JSON body `[]` parses, so the counter is
incremented, but `format_cve_alert` then raises (`AttributeError`: a list has
no `.get`) and the request is answered 500 — a delivery that is counted but
not successfully processed, so the counter does not equal the number of
successfully processed deliveries. -/
theorem counter_counts_failed_processing_counterexample :
    (do_POST 0 "/webhook" (.parsed (.jarr []))).resp.status = 500 ∧
    (do_POST 0 "/webhook" (.parsed (.jarr []))).count = 1 ∧
    (do_POST 0 "/webhook" (.parsed (.jarr []))).resp.body.lookup "error" =
      some (.jstr "AttributeError") :=
  ⟨rfl, rfl, rfl⟩
